import Mathlib

/-!
Shallow embedding of `scripts/tts/talk.py`, a command-line text-to-speech
demo: it parses CLI arguments, optionally lists audio devices, opens a
sound output stream and (optionally) a WAV output file, then loops reading
lines from standard input, synthesizing each line (batch or streaming) and
writing the resulting PCM chunks to the sound device and the file.

The program is modelled as a function from a configuration and an
environment (input lines, synthesis service behaviour, whether opening the
output file succeeds) to a trace of observable events plus an outcome
(clean return or a propagated Python exception) and the finalized WAV
file contents.
-/

namespace Talk

/-- Raw PCM audio bytes (`resp.audio` in the source), one byte per entry. -/
abbrev Chunk := List Nat

/-- Observable events of one run of `main`, in program order. -/
inductive Event where
  /-- `list_output_devices()` was called (the `--list-devices` branch). -/
  | listDevicesEv : Event
  /-- `riva_api.Auth(...)` was constructed (a network/auth resource). -/
  | authCreated : Event
  /-- The `SoundCallBack` device context was entered with the given frame rate. -/
  | deviceOpened (framerate : Int) : Event
  /-- `wave.open(str(args.output), 'wb')` succeeded and parameters were set. -/
  | fileOpened : Event
  /-- `input("Speak: ")` printed its prompt. -/
  | prompt : Event
  /-- The `Time to first audio` line was printed (streaming mode, first chunk). -/
  | printTimeToFirstAudio : Event
  /-- The `Time spent` line was printed (batch mode). -/
  | printTimeSpent : Event
  /-- `sound_stream(resp.audio)`: a chunk was written to the live device. -/
  | deviceWrite (c : Chunk) : Event
  /-- `out_f.writeframesraw(resp.audio)`: a chunk was appended to the WAV file. -/
  | fileWrite (c : Chunk) : Event
  /-- `out_f.close()` ran (the `finally` clause). -/
  | fileClosed : Event
  /-- The `SoundCallBack` context was exited (device released). -/
  | deviceClosed : Event
deriving DecidableEq, Repr

/-- Python exceptions that can propagate out of `main`'s body. -/
inductive Err where
  /-- `EOFError` raised by `input()` at end of standard input. -/
  | eofError : Err
  /-- `UnboundLocalError`: the `finally` clause read `out_f` before assignment. -/
  | unboundLocal : Err
  /-- An error raised by the synthesis service during a request. -/
  | synthesisError : Err
deriving DecidableEq, Repr

/-- Behaviour of `riva_api.SpeechSynthesisService` for this run: batch
synthesis either fails or returns one complete audio buffer; streaming
synthesis yields a finite chunk sequence, optionally followed by an error
raised mid-stream. -/
structure Service where
  synthesize : String → Except Unit Chunk
  synthesize_online : String → List Chunk × Option Unit

/-- Result of argument resolution (`parse_args`), mirroring the
`argparse.Namespace` fields of the source. The connection parameters
(`server`, `ssl_cert`, `use_ssl`) are added by the external helper
`add_connection_argparse_parameters` and are carried through opaquely. -/
structure Args where
  voice : String
  output : Option String
  listDevices : Bool
  outputDevice : Option Int
  languageCode : String
  sampleRateHz : Int
  stream : Bool
  server : Option String
  sslCert : Option String
  useSsl : Bool
deriving DecidableEq, Repr

/-- The command-line values supplied for one invocation, before type
conversion: `none` means the flag was absent, `some s` that string `s` was
supplied. Boolean fields are `store_true` flags. Connection parameters are
modelled from the spec as opaque pass-through values (the helper adding
them lives outside this file's source). -/
structure RawArgs where
  voice : Option String
  output : Option String
  listDevices : Bool
  outputDevice : Option String
  languageCode : Option String
  sampleRateHz : Option String
  stream : Bool
  server : Option String
  sslCert : Option String
  useSsl : Bool
deriving DecidableEq, Repr

/-- The only failure mode of argument resolution modelled here: a value
that argparse cannot convert to its declared type (`type=int`). -/
inductive ArgErr where
  | invalidArgument : ArgErr
deriving DecidableEq, Repr

/-- Accumulator pass over decimal digit characters, most significant
first; any non-digit character makes the whole conversion fail. -/
def natOfDigitsAux : List Char → Nat → Option Nat
  | [], acc => some acc
  | c :: cs, acc =>
      if c.isDigit then natOfDigitsAux cs (acc * 10 + (c.toNat - '0'.toNat))
      else none

/-- A non-empty all-digit character sequence read as a decimal number. -/
def natOfDigits : List Char → Option Nat
  | [] => none
  | cs => natOfDigitsAux cs 0

/-- Python `int(string)` as argparse applies it for `type=int`: an
optional sign followed by a non-empty run of decimal digits; anything
else fails the conversion. -/
def pyInt? (s : String) : Option Int :=
  match s.data with
  | '-' :: cs => (natOfDigits cs).map fun n => -(n : Int)
  | '+' :: cs => (natOfDigits cs).map fun n => (n : Int)
  | cs => (natOfDigits cs).map fun n => (n : Int)

/-- `pathlib.Path.expanduser`: replace a leading `~` path component by the
home directory; any other path is returned unchanged. -/
def expanduser (home : String) (p : String) : String :=
  match p.data with
  | ['~'] => home
  | '~' :: '/' :: rest => home ++ String.mk ('/' :: rest)
  | _ => p

/-- Conversion of an optional `type=int` argument with a default:
absent means the default, present means Python `int(...)` conversion,
which argparse turns into an error when it fails. -/
def parseIntArg (d : Int) : Option String → Option Int
  | none => some d
  | some s => pyInt? s

/-- Conversion of an optional `type=int` argument without a default
(`--output-device`). -/
def parseOptIntArg : Option String → Option (Option Int)
  | none => some none
  | some s => (pyInt? s).map some

/-- `parse_args` of the source: apply argparse defaults and `int`
conversions (voice defaults to `English-US-Female-1`, language to `en-US`,
sample rate to `44100`), then expand a user-supplied output path. -/
def parseArgs (home : String) (raw : RawArgs) : Except ArgErr Args :=
  match parseIntArg 44100 raw.sampleRateHz, parseOptIntArg raw.outputDevice with
  | some rate, some dev =>
      Except.ok
        { voice := raw.voice.getD "English-US-Female-1"
          output := raw.output.map (expanduser home)
          listDevices := raw.listDevices
          outputDevice := dev
          languageCode := raw.languageCode.getD "en-US"
          sampleRateHz := rate
          stream := raw.stream
          server := raw.server
          sslCert := raw.sslCert
          useSsl := raw.useSsl }
  | _, _ => Except.error ArgErr.invalidArgument

/-- Events of the streaming `for resp in responses` loop of `main`:
on the first chunk print the time-to-first-audio line, then write the
chunk to the device and, when an output file is open, to the file. -/
def streamEvents (outSome : Bool) : Bool → List Chunk → List Event
  | _, [] => []
  | first, c :: rest =>
      (if first then [Event.printTimeToFirstAudio] else []) ++
      (Event.deviceWrite c ::
        (if outSome then [Event.fileWrite c] else []) ++
        streamEvents outSome false rest)

/-- Events of the batch branch of `main`: print the elapsed-time line,
write the complete buffer to the device and, when an output file is open,
to the file. -/
def batchEvents (outSome : Bool) (a : Chunk) : List Event :=
  Event.printTimeSpent ::
    Event.deviceWrite a :: (if outSome then [Event.fileWrite a] else [])

/-- One iteration of the `while True` loop after `input` returned `t`:
the emitted events and the exception propagating out of the iteration,
if any. -/
def iterRun (outSome streamMode : Bool) (svc : Service) (t : String) :
    List Event × Option Err :=
  if streamMode then
    let r := svc.synthesize_online t
    (streamEvents outSome true r.1, r.2.map fun _ => Err.synthesisError)
  else
    match svc.synthesize t with
    | Except.error _ => ([], some Err.synthesisError)
    | Except.ok a => (batchEvents outSome a, none)

/-- Sequencing of one loop iteration with the rest of the loop: if the
iteration raised, its exception propagates and the rest never runs;
otherwise the iteration's events are followed by the rest of the loop. -/
def seqIter (r rest : List Event × Option Err) : List Event × Option Err :=
  match r.2 with
  | some e => (Event.prompt :: r.1, some e)
  | none => (Event.prompt :: (r.1 ++ rest.1), rest.2)

/-- The `while True` loop of `main` driven by the remaining lines of
standard input: each iteration prints the `Speak: ` prompt and runs one
request; when the lines are exhausted, `input` prints the prompt and
raises `EOFError`. Returns the events and the propagating exception. -/
def runLoop (outSome streamMode : Bool) (svc : Service) :
    List String → List Event × Option Err
  | [] => ([Event.prompt], some Err.eofError)
  | t :: ts =>
      seqIter (iterRun outSome streamMode svc t)
        (runLoop outSome streamMode svc ts)

/-- The header fields the `wave` module writes when a `Wave_write` opened
with the given parameters is closed: `close` patches the header so the
data-length field matches the bytes actually written. -/
structure WavHeader where
  nchannels : Nat
  sampwidth : Nat
  framerate : Int
  dataLength : Nat
deriving DecidableEq, Repr

/-- Everything `main` does not control: the lines available on standard
input (followed by end-of-input), the synthesis service behaviour, and
whether `wave.open` on the configured output path succeeds. -/
structure Env where
  lines : List String
  service : Service
  fileOpenOk : Bool

/-- Outcome of one run of `main`: the event trace, the exception that
propagated out of `main` (`none` for a clean return), and the finalized
WAV file (header and data bytes) when a file was opened and closed. -/
structure MainResult where
  events : List Event
  err : Option Err
  file : Option (WavHeader × List Nat)
deriving DecidableEq, Repr

/-- Projection extracting the chunk of a device-write event. -/
def deviceChunk? : Event → Option Chunk
  | Event.deviceWrite c => some c
  | _ => none

/-- Projection extracting the chunk of a file-write event. -/
def fileChunk? : Event → Option Chunk
  | Event.fileWrite c => some c
  | _ => none

/-- The chunks written to the live device, in trace order. -/
def deviceChunks (evs : List Event) : List Chunk := evs.filterMap deviceChunk?

/-- The chunks appended to the WAV file, in trace order. -/
def fileChunks (evs : List Event) : List Chunk := evs.filterMap fileChunk?

/-- The WAV header produced at close time for the configured frame rate
and number of data bytes written (mono, 16-bit, as set in `main`). -/
def mkHeader (rate : Int) (len : Nat) : WavHeader :=
  { nchannels := 1, sampwidth := 2, framerate := rate, dataLength := len }

/-- `main` of the source. `--list-devices` enumerates devices and returns
before any auth, device or file is created. Otherwise the auth handle and
sound device are acquired, the output file is opened inside the `try`
when configured, the loop runs, and the `finally` clause closes the file.
When `wave.open` fails, `out_f` was never assigned, so the `finally`
clause raises `UnboundLocalError` in place of the original error. -/
def runMain (args : Args) (env : Env) : MainResult :=
  if args.listDevices then
    { events := [Event.listDevicesEv], err := none, file := none }
  else
    let pre := [Event.authCreated, Event.deviceOpened args.sampleRateHz]
    match args.output with
    | some _ =>
        if env.fileOpenOk then
          let r := runLoop true args.stream env.service env.lines
          let data := List.flatten (fileChunks r.1)
          { events := pre ++ Event.fileOpened ::
              (r.1 ++ [Event.fileClosed, Event.deviceClosed])
            err := r.2
            file := some (mkHeader args.sampleRateHz data.length, data) }
        else
          { events := pre ++ [Event.deviceClosed]
            err := some Err.unboundLocal
            file := none }
    | none =>
        let r := runLoop false args.stream env.service env.lines
        { events := pre ++ (r.1 ++ [Event.deviceClosed])
          err := r.2
          file := none }

/-- Number of time-to-first-audio lines printed in a trace. -/
def countTTFA (evs : List Event) : Nat :=
  evs.countP fun e => decide (e = Event.printTimeToFirstAudio)

/-! ## Sample concrete configurations and environments -/

/-- A sample synthesis service: batch returns four bytes, streaming the
same bytes split into two chunks, with no mid-stream error. -/
def svcSample : Service :=
  { synthesize := fun _ => Except.ok [1, 2, 3, 4]
    synthesize_online := fun _ => ([[1, 2], [3, 4]], none) }

/-- A sample batch counterpart with the bytes in one buffer. -/
def svcSampleBatch : Service :=
  { synthesize := fun _ => Except.ok [1, 2, 3, 4]
    synthesize_online := fun _ => ([[1, 2, 3, 4]], none) }

/-- A sample service whose stream yields no chunks and no error. -/
def svcEmptyStream : Service :=
  { synthesize := fun _ => Except.ok []
    synthesize_online := fun _ => ([], none) }

/-- A sample resolved configuration with an output file and streaming on. -/
def argsSample : Args :=
  { voice := "English-US-Female-1"
    output := some "out.wav"
    listDevices := false
    outputDevice := none
    languageCode := "en-US"
    sampleRateHz := 44100
    stream := true
    server := some "localhost:50051"
    sslCert := none
    useSsl := false }

/-- A sample environment with one input line. -/
def envSample : Env :=
  { lines := ["hello"], service := svcSample, fileOpenOk := true }

/-- A sample configuration identical to `argsSample` except in batch mode. -/
def argsSampleBatch : Args :=
  { argsSample with stream := false }

/-- A sample configuration identical to `argsSample` except listing devices. -/
def argsSampleList : Args :=
  { argsSample with listDevices := true }

/-- A service that fails batch synthesis and raises mid-stream after one
chunk, for exercising error exit paths. -/
def svcFailing : Service :=
  { synthesize := fun _ => Except.error ()
    synthesize_online := fun _ => ([[9, 9]], some ()) }

/-- An environment whose single request hits the failing service. -/
def envFailing : Env :=
  { lines := ["a"], service := svcFailing, fileOpenOk := true }

/-- An environment in which opening the output WAV file fails. -/
def envOpenFail : Env :=
  { lines := ["hello"], service := svcSample, fileOpenOk := false }

/-- An environment with no input lines at all (immediate end-of-input). -/
def envEof : Env :=
  { lines := [], service := svcSample, fileOpenOk := true }

/-- The batch-mode counterpart of `envSample`: same lines, same total audio
bytes per request delivered as one buffer. -/
def envSampleBatch : Env :=
  { lines := ["hello"], service := svcSampleBatch, fileOpenOk := true }

/-- An environment whose streaming service yields zero chunks. -/
def envEmptyStream : Env :=
  { lines := ["x"], service := svcEmptyStream, fileOpenOk := true }

/-- A raw invocation supplying `--sample-rate-hz 0` and nothing else. -/
def rawSampleRateZero : RawArgs :=
  { voice := none, output := none, listDevices := false, outputDevice := none,
    languageCode := none, sampleRateHz := some "0", stream := false,
    server := none, sslCert := none, useSsl := false }

/-- A raw invocation supplying `--sample-rate-hz -5` and nothing else. -/
def rawSampleRateNeg : RawArgs :=
  { voice := none, output := none, listDevices := false, outputDevice := none,
    languageCode := none, sampleRateHz := some "-5", stream := false,
    server := none, sslCert := none, useSsl := false }

/-- The configuration that resolving `rawSampleRateZero` produces. -/
def argsZero : Args :=
  { voice := "English-US-Female-1", output := none, listDevices := false,
    outputDevice := none, languageCode := "en-US", sampleRateHz := 0,
    stream := false, server := none, sslCert := none, useSsl := false }

/-- A raw invocation relying on every default, with a tilde output path. -/
def rawDefaults : RawArgs :=
  { voice := none, output := some "~/audio.wav", listDevices := false,
    outputDevice := none, languageCode := none, sampleRateHz := none,
    stream := false, server := none, sslCert := none, useSsl := false }

/-! ## Helper lemmas -/

theorem fileChunks_append (a b : List Event) :
    fileChunks (a ++ b) = fileChunks a ++ fileChunks b := by
  simp [fileChunks, List.filterMap_append]

theorem deviceChunks_append (a b : List Event) :
    deviceChunks (a ++ b) = deviceChunks a ++ deviceChunks b := by
  simp [deviceChunks, List.filterMap_append]

theorem fileChunks_streamEvents_true (first : Bool) (cs : List Chunk) :
    fileChunks (streamEvents true first cs) = cs := by
  induction cs generalizing first with
  | nil => rfl
  | cons c rest ih =>
      cases first <;>
        simp [streamEvents, fileChunks, fileChunk?, List.filterMap_append,
          List.filterMap_cons] <;>
        exact ih false

theorem deviceChunks_streamEvents (o first : Bool) (cs : List Chunk) :
    deviceChunks (streamEvents o first cs) = cs := by
  induction cs generalizing first with
  | nil => rfl
  | cons c rest ih =>
      cases first <;> cases o <;>
        simp [streamEvents, deviceChunks, deviceChunk?, List.filterMap_append,
          List.filterMap_cons] <;>
        exact ih false

theorem fileChunks_batchEvents_true (a : Chunk) :
    fileChunks (batchEvents true a) = [a] := by
  simp [batchEvents, fileChunks, fileChunk?, List.filterMap_cons]

theorem deviceChunks_batchEvents (o : Bool) (a : Chunk) :
    deviceChunks (batchEvents o a) = [a] := by
  cases o <;>
    simp [batchEvents, deviceChunks, deviceChunk?, List.filterMap_cons]

theorem fileChunks_iterRun_eq (streamMode : Bool) (svc : Service) (t : String) :
    fileChunks (iterRun true streamMode svc t).1 =
      deviceChunks (iterRun true streamMode svc t).1 := by
  cases streamMode with
  | true =>
      simp [iterRun, fileChunks_streamEvents_true, deviceChunks_streamEvents]
  | false =>
      cases h : svc.synthesize t with
      | error e => simp [iterRun, h, fileChunks, deviceChunks]
      | ok a =>
          simp [iterRun, h, fileChunks_batchEvents_true, deviceChunks_batchEvents]

theorem fileChunks_runLoop_eq (streamMode : Bool) (svc : Service)
    (lines : List String) :
    fileChunks (runLoop true streamMode svc lines).1 =
      deviceChunks (runLoop true streamMode svc lines).1 := by
  induction lines with
  | nil => rfl
  | cons t ts ih =>
      have hi : List.filterMap fileChunk? (iterRun true streamMode svc t).1 =
          List.filterMap deviceChunk? (iterRun true streamMode svc t).1 :=
        fileChunks_iterRun_eq streamMode svc t
      have ihu : List.filterMap fileChunk? (runLoop true streamMode svc ts).1 =
          List.filterMap deviceChunk? (runLoop true streamMode svc ts).1 := ih
      simp only [runLoop, seqIter]
      cases hr : (iterRun true streamMode svc t).2 with
      | none =>
          simp [fileChunks, deviceChunks, List.filterMap_cons, fileChunk?,
            deviceChunk?, List.filterMap_append, hi, ihu]
      | some e =>
          simp [fileChunks, deviceChunks, List.filterMap_cons, fileChunk?,
            deviceChunk?, hi]

theorem countP_TTFA_streamEvents_false (o : Bool) (cs : List Chunk) :
    List.countP (fun e => decide (e = Event.printTimeToFirstAudio))
      (streamEvents o false cs) = 0 := by
  induction cs with
  | nil => rfl
  | cons c rest ih =>
      cases o <;>
        simp [streamEvents, List.countP_cons, List.countP_append, ih]

/-! ## Claim theorems -/

/-- C1: whenever an output file is configured and successfully opened, the
chunks appended to the WAV file are exactly, in order, the chunks written
to the live device — each chunk once, no reordering, duplication or loss —
and the finalized file holds precisely their concatenation. -/
theorem c1_file_mirrors_device (args : Args) (env : Env) (p : String)
    (hl : args.listDevices = false) (ho : args.output = some p)
    (hf : env.fileOpenOk = true) :
    fileChunks (runMain args env).events = deviceChunks (runMain args env).events ∧
    (runMain args env).file =
      some (mkHeader args.sampleRateHz
              (List.flatten (deviceChunks (runMain args env).events)).length,
            List.flatten (deviceChunks (runMain args env).events)) := by
  have hloop : List.filterMap fileChunk?
        (runLoop true args.stream env.service env.lines).1 =
      List.filterMap deviceChunk?
        (runLoop true args.stream env.service env.lines).1 :=
    fileChunks_runLoop_eq args.stream env.service env.lines
  simp [runMain, hl, ho, hf, fileChunks, deviceChunks, List.filterMap_append,
    List.filterMap_cons, fileChunk?, deviceChunk?, hloop]

/-- C1 witness at a concrete streaming session with one input line. -/
theorem c1_file_mirrors_device_witness :
    argsSample.listDevices = false ∧ argsSample.output = some "out.wav" ∧
    envSample.fileOpenOk = true ∧
    (fileChunks (runMain argsSample envSample).events =
        deviceChunks (runMain argsSample envSample).events ∧
      (runMain argsSample envSample).file =
        some (mkHeader argsSample.sampleRateHz
                (List.flatten (deviceChunks (runMain argsSample envSample).events)).length,
              List.flatten (deviceChunks (runMain argsSample envSample).events))) :=
  ⟨rfl, rfl, rfl, c1_file_mirrors_device argsSample envSample "out.wav" rfl rfl rfl⟩

/-- C4: on every exit path of the loop — end-of-input or an error raised
mid-iteration — once the output file was successfully opened, its close
step runs and finalizes a header with channel count 1, sample width 2,
frame rate equal to the configured sample rate, and a data-length field
equal to the number of bytes written. -/
theorem c4_close_finalizes_header (args : Args) (env : Env) (p : String)
    (hl : args.listDevices = false) (ho : args.output = some p)
    (hf : env.fileOpenOk = true) :
    ∃ hdr data, (runMain args env).file = some (hdr, data) ∧
      hdr.nchannels = 1 ∧ hdr.sampwidth = 2 ∧
      hdr.framerate = args.sampleRateHz ∧ hdr.dataLength = data.length := by
  refine ⟨mkHeader args.sampleRateHz
      (List.flatten (fileChunks (runLoop true args.stream env.service env.lines).1)).length,
    List.flatten (fileChunks (runLoop true args.stream env.service env.lines).1),
    ?_, rfl, rfl, rfl, rfl⟩
  simp [runMain, hl, ho, hf]

/-- C4 witness at a concrete session that ends in a mid-loop synthesis
error, showing the file is still finalized consistently. -/
theorem c4_close_finalizes_header_witness :
    argsSample.listDevices = false ∧ argsSample.output = some "out.wav" ∧
    (∃ hdr data,
      (runMain argsSample envFailing).file = some (hdr, data) ∧
      hdr.nchannels = 1 ∧ hdr.sampwidth = 2 ∧
      hdr.framerate = argsSample.sampleRateHz ∧ hdr.dataLength = data.length) :=
  ⟨rfl, rfl, c4_close_finalizes_header argsSample envFailing "out.wav" rfl rfl rfl⟩

/-- C5: with `--list-devices` set, the run only enumerates output devices
and returns: no auth handle, no device, no file, no prompt — the whole
trace is the single device-enumeration event, with a clean return and no
file produced. -/
theorem c5_list_devices_only (args : Args) (env : Env)
    (h : args.listDevices = true) :
    runMain args env =
      { events := [Event.listDevicesEv], err := none, file := none } := by
  simp [runMain, h]

/-- C5 witness at a concrete configuration. -/
theorem c5_list_devices_only_witness :
    argsSampleList.listDevices = true ∧
    runMain argsSampleList envSample =
      { events := [Event.listDevicesEv], err := none, file := none } :=
  ⟨rfl, c5_list_devices_only argsSampleList envSample rfl⟩

/-- C9: when an output file is configured but opening it fails, the
`finally` clause reads `out_f` before any assignment, so the run ends with
an `UnboundLocalError` and no finalized file exists; moreover no bytes
were ever appended to a file. -/
theorem c9_unbound_local_on_open_failure (args : Args) (env : Env) (p : String)
    (hl : args.listDevices = false) (ho : args.output = some p)
    (hf : env.fileOpenOk = false) :
    (runMain args env).err = some Err.unboundLocal ∧
    (runMain args env).file = none ∧
    fileChunks (runMain args env).events = [] := by
  simp [runMain, hl, ho, hf, fileChunks, List.filterMap_append,
    List.filterMap_cons, fileChunk?]

/-- C9 witness at a concrete configuration whose file open fails. -/
theorem c9_unbound_local_on_open_failure_witness :
    argsSample.output = some "out.wav" ∧ envOpenFail.fileOpenOk = false ∧
    ((runMain argsSample envOpenFail).err = some Err.unboundLocal ∧
      (runMain argsSample envOpenFail).file = none ∧
      fileChunks (runMain argsSample envOpenFail).events = []) :=
  ⟨rfl, rfl, c9_unbound_local_on_open_failure argsSample envOpenFail "out.wav" rfl rfl rfl⟩

/-- C3 counterexample: at a concrete session whose standard input is
already exhausted, the run does not terminate cleanly — `input()` raises
`EOFError`, which propagates out of `main` — refuting the claim that
end-of-input produces no error. -/
theorem c3_counterexample :
    (runMain argsSample envEof).err = some Err.eofError ∧
    ¬ (runMain argsSample envEof).err = none := by
  refine ⟨rfl, fun h => ?_⟩
  exact Option.noConfusion
    ((rfl : (runMain argsSample envEof).err = some Err.eofError).symm.trans h)

/-- C3 amended: end-of-input at the prompt makes `input()` raise an
`EOFError` that propagates uncaught (so the process exits with that
error rather than cleanly), but the `finally` clause still runs, so a
configured and successfully opened output file is finalized — here with
an empty data payload and a consistent header. -/
theorem c3_eof_finalizes_but_raises (args : Args) (env : Env)
    (h1 : args.listDevices = false) (h2 : env.lines = [])
    (h3 : env.fileOpenOk = true) :
    (runMain args env).err = some Err.eofError ∧
    (∀ p, args.output = some p →
      (runMain args env).file = some (mkHeader args.sampleRateHz 0, [])) := by
  cases ho : args.output with
  | none =>
      refine ⟨?_, ?_⟩
      · simp [runMain, h1, h2, ho, runLoop]
      · intro p hp
        exact Option.noConfusion hp
  | some q =>
      refine ⟨?_, ?_⟩
      · simp [runMain, h1, h2, h3, ho, runLoop]
      · intro p hp
        simp [runMain, h1, h2, h3, ho, runLoop, fileChunks,
          List.filterMap_cons, fileChunk?, mkHeader]

/-- C3 witness for the amended statement, at a concrete configuration with
an output file and exhausted input. -/
theorem c3_eof_finalizes_but_raises_witness :
    argsSample.listDevices = false ∧ envEof.lines = [] ∧
    envEof.fileOpenOk = true ∧
    ((runMain argsSample envEof).err = some Err.eofError ∧
      (∀ p, argsSample.output = some p →
        (runMain argsSample envEof).file =
          some (mkHeader argsSample.sampleRateHz 0, []))) :=
  ⟨rfl, rfl, rfl, c3_eof_finalizes_but_raises argsSample envEof rfl rfl rfl⟩

/-- C10: a streaming request whose stream yields zero chunks completes its
iteration without error and without events: no time-to-first-audio line,
no device write, no file write; the loop then proceeds directly to the
next prompt. -/
theorem c10_empty_stream_iteration (o : Bool) (svc : Service) (t : String)
    (ts : List String) (h : svc.synthesize_online t = ([], none)) :
    iterRun o true svc t = ([], none) ∧
    runLoop o true svc (t :: ts) =
      (Event.prompt :: (runLoop o true svc ts).1,
        (runLoop o true svc ts).2) := by
  have hi : iterRun o true svc t = ([], none) := by
    simp [iterRun, h, streamEvents]
  refine ⟨hi, ?_⟩
  simp [runLoop, seqIter, hi]

/-- C10 witness at a concrete zero-chunk stream. -/
theorem c10_empty_stream_iteration_witness :
    svcEmptyStream.synthesize_online "x" = ([], none) ∧
    (iterRun true true svcEmptyStream "x" = ([], none) ∧
      runLoop true true svcEmptyStream ["x"] =
        (Event.prompt :: (runLoop true true svcEmptyStream []).1,
          (runLoop true true svcEmptyStream []).2)) :=
  ⟨rfl, c10_empty_stream_iteration true svcEmptyStream "x" [] rfl⟩

/-- C6: in a streaming iteration the chunks are written to the device in
arrival order (exactly the stream, no reordering or loss); the
time-to-first-audio line is printed exactly once when the stream is
non-empty and never otherwise; and on a non-empty stream the trace starts
with that line, followed immediately by the first chunk's device write
(and its file write when a file is open) before any later chunk. -/
theorem c6_streaming_order (o : Bool) (cs : List Chunk) :
    deviceChunks (streamEvents o true cs) = cs ∧
    countTTFA (streamEvents o true cs) = (if cs = [] then 0 else 1) ∧
    (∀ c rest, cs = c :: rest →
      streamEvents o true cs =
        Event.printTimeToFirstAudio :: Event.deviceWrite c ::
          ((if o then [Event.fileWrite c] else []) ++
            streamEvents o false rest)) := by
  refine ⟨deviceChunks_streamEvents o true cs, ?_, ?_⟩
  · cases cs with
    | nil => simp [streamEvents, countTTFA]
    | cons c rest =>
        cases o <;>
          simp [streamEvents, countTTFA, List.countP_cons, List.countP_append,
            countP_TTFA_streamEvents_false]
  · intro c rest hcs
    subst hcs
    cases o <;> simp [streamEvents]

/-- C6 witness at a concrete two-chunk stream with a file open. -/
theorem c6_streaming_order_witness :
    deviceChunks (streamEvents true true [[1, 2], [3, 4]]) = [[1, 2], [3, 4]] ∧
    countTTFA (streamEvents true true [[1, 2], [3, 4]]) =
      (if ([[1, 2], [3, 4]] : List Chunk) = [] then 0 else 1) ∧
    (∀ c rest, ([[1, 2], [3, 4]] : List Chunk) = c :: rest →
      streamEvents true true [[1, 2], [3, 4]] =
        Event.printTimeToFirstAudio :: Event.deviceWrite c ::
          ((if true then [Event.fileWrite c] else []) ++
            streamEvents true false rest)) :=
  c6_streaming_order true [[1, 2], [3, 4]]

theorem head_runMain_authCreated (args : Args) (env : Env)
    (h : args.listDevices = false) :
    (runMain args env).events.head? = some Event.authCreated := by
  cases ho : args.output <;> cases hf : env.fileOpenOk <;>
    simp [runMain, h, ho, hf, List.cons_append]

/-- C2 counterexample: with `--sample-rate-hz 0`, argument resolution does
not fail — it returns a configuration with sample rate `0` — and the run
then proceeds to create the auth/connection handle as its very first
action, so no `InvalidArgument` failure precedes resource acquisition. -/
theorem c2_counterexample :
    parseArgs "/home/user" rawSampleRateZero = Except.ok argsZero ∧
    argsZero.sampleRateHz = 0 ∧
    (runMain argsZero envEof).events.head? = some Event.authCreated := by
  refine ⟨?_, rfl, rfl⟩
  rfl

/-- C2 amended: argument resolution rejects a sample-rate value only when
it does not parse as an integer; any integer — zero and negatives
included — is accepted as the configured rate, and the program then
proceeds to create the auth/connection handle (its first resource) before
any failure could occur. -/
theorem c2_no_rate_validation (home : String) (raw : RawArgs) (s : String)
    (n : Int) (hs : raw.sampleRateHz = some s) (hn : pyInt? s = some n)
    (hd : raw.outputDevice = none) :
    ∃ args, parseArgs home raw = Except.ok args ∧ args.sampleRateHz = n ∧
      (args.listDevices = false →
        ∀ env, (runMain args env).events.head? = some Event.authCreated) := by
  have hp : parseArgs home raw = Except.ok
      { voice := raw.voice.getD "English-US-Female-1"
        output := raw.output.map (expanduser home)
        listDevices := raw.listDevices
        outputDevice := none
        languageCode := raw.languageCode.getD "en-US"
        sampleRateHz := n
        stream := raw.stream
        server := raw.server
        sslCert := raw.sslCert
        useSsl := raw.useSsl } := by
    simp [parseArgs, parseIntArg, parseOptIntArg, hs, hn, hd]
  exact ⟨_, hp, rfl, fun hl env => head_runMain_authCreated _ env hl⟩

/-- C2 witness for the amended statement, at the concrete invocation
`--sample-rate-hz -5`. -/
theorem c2_no_rate_validation_witness :
    rawSampleRateNeg.sampleRateHz = some "-5" ∧ pyInt? "-5" = some (-5) ∧
    rawSampleRateNeg.outputDevice = none ∧
    (∃ args, parseArgs "/home/user" rawSampleRateNeg = Except.ok args ∧
      args.sampleRateHz = -5 ∧
      (args.listDevices = false →
        ∀ env, (runMain args env).events.head? = some Event.authCreated)) :=
  ⟨rfl, by decide, rfl,
    c2_no_rate_validation "/home/user" rawSampleRateNeg "-5" (-5) rfl
      (by decide) rfl⟩

theorem flatten_fileChunks_loop_chunking (svcB svcS : Service)
    (hsvc : ∀ t, svcB.synthesize t =
      Except.ok (List.flatten (svcS.synthesize_online t).1))
    (hdone : ∀ t, (svcS.synthesize_online t).2 = none) :
    ∀ lines, List.flatten (fileChunks (runLoop true false svcB lines).1) =
      List.flatten (fileChunks (runLoop true true svcS lines).1) := by
  intro lines
  induction lines with
  | nil => rfl
  | cons t ts ih =>
      have hb : iterRun true false svcB t =
          (batchEvents true (List.flatten (svcS.synthesize_online t).1),
            none) := by
        simp [iterRun, hsvc t]
      have hs2 : iterRun true true svcS t =
          (streamEvents true true (svcS.synthesize_online t).1, none) := by
        simp [iterRun, hdone t]
      have hfse : List.filterMap fileChunk?
            (streamEvents true true (svcS.synthesize_online t).1) =
          (svcS.synthesize_online t).1 :=
        fileChunks_streamEvents_true true (svcS.synthesize_online t).1
      have ihu : List.flatten
            (List.filterMap fileChunk? (runLoop true false svcB ts).1) =
          List.flatten
            (List.filterMap fileChunk? (runLoop true true svcS ts).1) := ih
      simp [runLoop, seqIter, hb, hs2, fileChunks, List.filterMap_cons,
        fileChunk?, List.filterMap_append, batchEvents, hfse, ihu]

/-- C7: a batch-mode session and a streaming-mode session over the same
input lines, whose services deliver the same total audio bytes per
request (the stream's chunks concatenating to the batch buffer), produce
identical finalized output files — the file depends only on the
concatenated bytes per request, not on the chunking. -/
theorem c7_chunking_irrelevant (argsB argsS : Args) (envB envS : Env)
    (pB pS : String)
    (hb1 : argsB.listDevices = false) (hs1 : argsS.listDevices = false)
    (hb2 : argsB.stream = false) (hs2 : argsS.stream = true)
    (hb3 : argsB.output = some pB) (hs3 : argsS.output = some pS)
    (hb4 : envB.fileOpenOk = true) (hs4 : envS.fileOpenOk = true)
    (hrate : argsB.sampleRateHz = argsS.sampleRateHz)
    (hlines : envB.lines = envS.lines)
    (hsvc : ∀ t, envB.service.synthesize t =
      Except.ok (List.flatten ((envS.service.synthesize_online t).1)))
    (hdone : ∀ t, (envS.service.synthesize_online t).2 = none) :
    (runMain argsB envB).file = (runMain argsS envS).file := by
  have key : List.flatten
        (List.filterMap fileChunk? (runLoop true false envB.service envS.lines).1) =
      List.flatten
        (List.filterMap fileChunk? (runLoop true true envS.service envS.lines).1) :=
    flatten_fileChunks_loop_chunking envB.service envS.service hsvc hdone
      envS.lines
  simp [runMain, hb1, hs1, hb2, hs2, hb3, hs3, hb4, hs4, hrate, hlines,
    fileChunks, key]

/-- C7 witness: the concrete one-line session where the batch service
returns the four bytes that the streaming service delivers as two
chunks. -/
theorem c7_chunking_irrelevant_witness :
    argsSampleBatch.stream = false ∧ argsSample.stream = true ∧
    (∀ t, envSampleBatch.service.synthesize t =
      Except.ok (List.flatten ((envSample.service.synthesize_online t).1))) ∧
    (runMain argsSampleBatch envSampleBatch).file =
      (runMain argsSample envSample).file :=
  ⟨rfl, rfl, fun _ => rfl,
    c7_chunking_irrelevant argsSampleBatch argsSample envSampleBatch envSample
      "out.wav" "out.wav" rfl rfl rfl rfl rfl rfl rfl rfl rfl rfl
      (fun _ => rfl) (fun _ => rfl)⟩

/-- C8: with the relevant flags absent, argument resolution succeeds and
yields the documented defaults — voice `English-US-Female-1`, language
`en-US`, sample rate 44100, streaming off — and a supplied output path
has a leading tilde expanded to the home directory before use. -/
theorem c8_defaults_and_expansion (home : String) (raw : RawArgs)
    (h1 : raw.voice = none) (h2 : raw.languageCode = none)
    (h3 : raw.sampleRateHz = none) (h4 : raw.stream = false)
    (h5 : raw.outputDevice = none) :
    ∃ args, parseArgs home raw = Except.ok args ∧
      args.voice = "English-US-Female-1" ∧ args.languageCode = "en-US" ∧
      args.sampleRateHz = 44100 ∧ args.stream = false ∧
      args.output = raw.output.map (expanduser home) := by
  have hp : parseArgs home raw = Except.ok
      { voice := "English-US-Female-1"
        output := raw.output.map (expanduser home)
        listDevices := raw.listDevices
        outputDevice := none
        languageCode := "en-US"
        sampleRateHz := 44100
        stream := false
        server := raw.server
        sslCert := raw.sslCert
        useSsl := raw.useSsl } := by
    simp [parseArgs, parseIntArg, parseOptIntArg, h1, h2, h3, h4, h5]
  exact ⟨_, hp, rfl, rfl, rfl, rfl, rfl⟩

/-- C8 witness at the concrete all-defaults invocation with output path
`~/audio.wav` and home directory `/home/user`. -/
theorem c8_defaults_and_expansion_witness :
    rawDefaults.voice = none ∧ rawDefaults.sampleRateHz = none ∧
    ∃ args, parseArgs "/home/user" rawDefaults = Except.ok args ∧
      args.voice = "English-US-Female-1" ∧ args.languageCode = "en-US" ∧
      args.sampleRateHz = 44100 ∧ args.stream = false ∧
      args.output = some "/home/user/audio.wav" := by
  refine ⟨rfl, rfl, ?_⟩
  obtain ⟨args, h, hv, hl, hr, hs, hout⟩ :=
    c8_defaults_and_expansion "/home/user" rawDefaults rfl rfl rfl rfl rfl
  exact ⟨args, h, hv, hl, hr, hs, hout.trans (by decide)⟩

end Talk
